import Mathlib

/-!
Verification development for the VisionBuddy repository.

The definitions below are a shallow embedding of the multimodal interaction
orchestrator (the App component), the vision-analysis client
(GeminiService.describeScene), the spatial-registry client
(SnowflakeService.searchRegistry / fetchGoldenPath), and the speech-output
logic (playMessage and the audio completion handlers).

Modelling conventions:
- JavaScript strings are Lean Strings; `String.prototype.includes` is
  `strContains`; `String.prototype.toLowerCase` is `toLowerStr`
  (keyword matching in the source is ASCII-only, so ASCII lowercasing is
  faithful).
- React `useState` state is the `AppState` record.  An event handler runs
  against a snapshot of that record and its `set*` calls take effect when the
  handler finishes, so each handler is a function from the snapshot state (and
  the outcomes of its external calls, passed as explicit parameters) to a
  result record containing the new state and the observable effects
  (speech events, vision-call arguments, registry writes).
- JavaScript truthiness of nullable strings (`x || undefined`, `if (x)`) is
  `jsTruthy`, which maps the empty string to `none`.
- Network outcomes (the Gemini call, the registry fetches, ElevenLabs, the
  registry save) are environment parameters of the inductive types
  `GeminiRaw`, `RegistryResponse`, `TtsOutcome`, `SaveOutcome`; the handler
  code never inspects anything about them beyond what these types carry.
- Monetary amounts are tracked in thousandths (the source starts the balance
  at 1.245 and adds 0.005 per rewarded turn; only whether and how often the
  increment happens matters to the claims, not float rounding).
-/

set_option maxRecDepth 20000

namespace VisionBuddy

/-- Decidable prefix test on character lists (helper for `strContains`). -/
def charsPrefixOf : List Char → List Char → Bool
  | [], _ => true
  | _ :: _, [] => false
  | a :: as, b :: bs => a == b && charsPrefixOf as bs

/-- Substring test on character lists, scanning every start position.
Mirrors `String.prototype.includes` of JavaScript. -/
def containsSub : List Char → List Char → Bool
  | s, sub =>
    match s with
    | [] => sub.isEmpty
    | _ :: tail => charsPrefixOf sub s || containsSub tail sub

/-- JavaScript `haystack.includes(needle)` on Lean strings. -/
def strContains (s sub : String) : Bool := containsSub s.data sub.data

/-- ASCII lowercasing, mirroring `String.prototype.toLowerCase` on the ASCII
keywords the source matches against. -/
def toLowerStr (s : String) : String := String.mk (s.data.map Char.toLower)

/-- If a string contains the concatenation of two patterns, it contains the
first pattern. -/
theorem charsPrefixOf_append (a b s : List Char)
    (h : charsPrefixOf (a ++ b) s = true) : charsPrefixOf a s = true := by
  induction a generalizing s with
  | nil => rfl
  | cons c cs ih =>
    cases s with
    | nil => simp [charsPrefixOf] at h
    | cons d ds =>
      simp only [List.cons_append, charsPrefixOf, Bool.and_eq_true] at h ⊢
      exact ⟨h.1, ih ds h.2⟩

/-- Containment of a concatenated pattern implies containment of its left
part. -/
theorem containsSub_append_left (s a b : List Char)
    (h : containsSub s (a ++ b) = true) : containsSub s a = true := by
  induction s with
  | nil =>
    simp only [containsSub, List.isEmpty_iff, List.append_eq_nil] at h
    simp [containsSub, List.isEmpty_iff, h.1]
  | cons c t ih =>
    simp only [containsSub, Bool.or_eq_true] at h ⊢
    rcases h with h | h
    · exact Or.inl (charsPrefixOf_append a b _ h)
    · exact Or.inr (ih h)

/-- String-level corollary: containing `a ++ b` implies containing `a`. -/
theorem strContains_append_left (s : String) (a b : String)
    (h : strContains s (a ++ b) = true) : strContains s a = true := by
  have hd : (a ++ b).data = a.data ++ b.data := by
    cases a; cases b; rfl
  unfold strContains at h ⊢
  rw [hd] at h
  exact containsSub_append_left s.data a.data b.data h

/-- `List.find?` returns the element when it is the unique satisfier of the
predicate in the list. -/
theorem find?_eq_some_of_unique {α : Type} (p : α → Bool) (l : List α) (x : α)
    (hmem : x ∈ l) (hx : p x = true)
    (huniq : ∀ y ∈ l, p y = true → y = x) : l.find? p = some x := by
  induction l with
  | nil => cases hmem
  | cons a t ih =>
    by_cases ha : p a = true
    · have hax : a = x := huniq a (List.mem_cons_self a t) ha
      rw [List.find?_cons_of_pos t ha, hax]
    · have hxt : x ∈ t := by
        rcases List.mem_cons.mp hmem with h | h
        · rw [h] at hx; exact absurd hx ha
        · exact h
      rw [List.find?_cons_of_neg t ha]
      exact ih hxt (fun y hy hp => huniq y (List.mem_cons_of_mem a hy) hp)

/-- The entry order of the `languageKeywords` object in the App component. -/
def languageNames : List String :=
  ["Spanish", "French", "German", "Chinese", "Japanese", "Hindi",
   "English", "Portuguese", "Italian"]

/-- The four language-switch trigger phrases checked for a given
(lowercased) language name, in source order. -/
def langSwitchPhrases (l : String) : List String :=
  ["speak in " ++ l, "switch to " ++ l, "talk in " ++ l,
   "change language to " ++ l]

/-- The language-detection loop at the top of `handleUserQuestion`: the first
language (in `languageKeywords` entry order) for which one of the four trigger
phrases occurs in the lowercased utterance. -/
def detectLanguageSwitch (lq : String) : Option String :=
  languageNames.find? (fun lang =>
    (langSwitchPhrases (toLowerStr lang)).any (fun p => strContains lq p))

/-- The `pinKeywords` array of `handleUserQuestion`. -/
def pinKeywords : List String :=
  ["pin this", "save this", "remember this", "pin location", "save location",
   "pin", "save"]

/-- The `navKeywords` array of `handleUserQuestion`. -/
def navKeywords : List String :=
  ["where is", "find", "navigate to", "go to", "looking for", "washroom",
   "toilet", "exit", "elevator", "restroom"]

/-- `pinKeywords.some(k => lowerQuestion.includes(k))`. -/
def isPinIntent (lq : String) : Bool :=
  pinKeywords.any (fun k => strContains lq k)

/-- `navKeywords.some(k => lowerQuestion.includes(k))`. -/
def isNavIntent (lq : String) : Bool :=
  navKeywords.any (fun k => strContains lq k)

/-- The per-request language override loop: the first language name whose
phrase "translate to " + name occurs in the lowercased utterance. -/
def translateOverride (lq : String) : Option String :=
  languageNames.find? (fun lang =>
    strContains lq ("translate to " ++ toLowerStr lang))

/-- The intents an utterance can resolve to (the spec data model; the
navigate target is the full utterance, as in the source). -/
inductive Intent
  | languageSwitch (lang : String)
  | pinLocation
  | navigateTo (target : String)
  | freeform (text : String)
deriving DecidableEq

/-- The sequential intent checks of `handleUserQuestion`, in source order:
language switch first, then pin, then navigation, else a free-form question.
-/
def classifyUtterance (question : String) : Intent :=
  let lq := toLowerStr question
  match detectLanguageSwitch lq with
  | some lang => Intent.languageSwitch lang
  | none =>
    if isPinIntent lq then Intent.pinLocation
    else if isNavIntent lq then Intent.navigateTo question
    else Intent.freeform question

/-- JavaScript truthiness of a nullable string: the empty string and null are
both falsy (`x || undefined`, `if (x)`). -/
def jsTruthy (o : Option String) : Option String :=
  match o with
  | some t => if t = "" then none else some t
  | none => none

/-- The structured scene analysis returned by the vision client
(`SceneAnalysis` in services/gemini.ts). -/
structure SceneAnalysis where
  description : String
  hazard : Option String
  navigation : Option String
deriving DecidableEq

/-- Outcome of the raw Gemini API call inside `describeScene`:
`transportError` covers a rejected `generateContent` call (and any other
throw inside the try block), `emptyText` is a response whose `text` field is
absent or empty, and `text p` is a textual response whose JSON decoding
(after stripping markdown fences) yields `p` (`none` when `JSON.parse`
throws). -/
inductive GeminiRaw
  | transportError
  | emptyText
  | text (parsed : Option SceneAnalysis)
deriving DecidableEq

/-- The fail-closed analysis built in the catch block of
`GeminiService.describeScene`. -/
def geminiFailureAnalysis : SceneAnalysis :=
  { description := "I'm having trouble seeing the path right now.",
    hazard := some "Visual system error.",
    navigation := none }

/-- `GeminiService.describeScene` (the structured version in
services/gemini.ts): every transport or parse error is caught and converted
to `geminiFailureAnalysis`; an empty `response.text` is replaced by the
literal default JSON, which decodes to the "I cannot see clearly." analysis
with no hazard and no navigation.  The prompt-construction arguments
(image, question, navigation target, language) only shape the remote request
and are recorded at the call sites (`VisionCall`); the response mapping does
not inspect them. -/
def describeScene (raw : GeminiRaw) : SceneAnalysis :=
  match raw with
  | GeminiRaw.transportError => geminiFailureAnalysis
  | GeminiRaw.emptyText =>
    { description := "I cannot see clearly.", hazard := none,
      navigation := none }
  | GeminiRaw.text none => geminiFailureAnalysis
  | GeminiRaw.text (some a) => a

/-- Abstract 2-D coordinates of a spatial node. The numeric values are never
inspected by the orchestrator logic under verification. -/
structure Coordinates where
  x : Int
  y : Int
deriving DecidableEq

/-- A row of the spatial registry (services/snowflake.ts `SpatialNode`). -/
structure SpatialNode where
  id : String
  buildingId : String
  coordinates : Coordinates
  description : String
  isGoldenPath : Bool
deriving DecidableEq

/-- The raw value of the IS_GOLDEN_PATH column as delivered by the SQL API:
either a string or a boolean (the source compares `row[4] === "TRUE" ||
row[4] === true`). -/
inductive GoldRaw
  | str (s : String)
  | boolVal (b : Bool)
deriving DecidableEq

/-- One raw result row of a registry query.  `coordinatesRaw` is the outcome
of `JSON.parse(row[2])`: `none` when that parse throws. -/
structure RegistryRow where
  id : String
  buildingId : String
  coordinatesRaw : Option Coordinates
  description : String
  goldenRaw : GoldRaw
deriving DecidableEq

/-- Outcome of one `/api/snowflake/execute` round trip as observed by the
client code: `transportError` covers a rejected `fetch` and a non-JSON body
(`response.json()` throwing), `jsonWithoutData` is a JSON body whose `data`
field is absent or falsy, and `jsonData rows` is a JSON body with a `data`
array. -/
inductive RegistryResponse
  | transportError
  | jsonWithoutData
  | jsonData (rows : List RegistryRow)

/-- The per-row mapping inside `searchRegistry` / `fetchGoldenPath`; fails
(throws in the source) when the coordinates column is not valid JSON. -/
def rowToNode (r : RegistryRow) : Option SpatialNode :=
  match r.coordinatesRaw with
  | none => none
  | some c =>
    some { id := r.id, buildingId := r.buildingId, coordinates := c,
           description := r.description,
           isGoldenPath :=
             match r.goldenRaw with
             | GoldRaw.str s => s = "TRUE"
             | GoldRaw.boolVal b => b }

/-- The `data.data.map(...)` step: JavaScript `map` evaluates left to right
and the first throwing row aborts the whole mapping (caught by the
surrounding try, which then returns the empty list). -/
def mapRows : List RegistryRow → Option (List SpatialNode)
  | [] => some []
  | r :: rs =>
    match rowToNode r, mapRows rs with
    | some n, some ns => some (n :: ns)
    | _, _ => none

/-- `SnowflakeService.searchRegistry`: every failure path (rejected fetch,
non-JSON body, missing `data` field, row that fails to decode) is caught and
yields the empty list; the query and building id only build the SQL text
sent with the request. -/
def searchRegistry (_query _buildingId : String)
    (resp : RegistryResponse) : List SpatialNode :=
  match resp with
  | RegistryResponse.transportError => []
  | RegistryResponse.jsonWithoutData => []
  | RegistryResponse.jsonData rows => (mapRows rows).getD []

/-- `SnowflakeService.fetchGoldenPath`: identical response handling to
`searchRegistry` (only the SQL text differs). -/
def fetchGoldenPath (_buildingId : String)
    (resp : RegistryResponse) : List SpatialNode :=
  match resp with
  | RegistryResponse.transportError => []
  | RegistryResponse.jsonWithoutData => []
  | RegistryResponse.jsonData rows => (mapRows rows).getD []

/-- The localized per-turn message keys of `getSystemMessage`. -/
inductive MsgKey
  | navigating
  | signHunting
  | pinned
  | pinFailed
deriving DecidableEq

/-- The `getSystemMessage` localization catalog: English, Spanish, French,
German and Hindi tables; any other active language falls back to the English
table.  The parameter is spliced exactly where the source template does. -/
def systemMessage (lang : String) (key : MsgKey) (param : String) : String :=
  if lang = "Spanish" then
    match key with
    | MsgKey.navigating => "Navegando hacia " ++ param ++ ". Te guiaré."
    | MsgKey.signHunting => "Buscaré señales para " ++ param ++ ". Vamos."
    | MsgKey.pinned =>
      "Ubicación fijada en el registro espacial. Esperando auditoría."
    | MsgKey.pinFailed => "Error al guardar la ubicación en el registro."
  else if lang = "French" then
    match key with
    | MsgKey.navigating =>
      "Navigation vers " ++ param ++ ". Je vais vous guider."
    | MsgKey.signHunting =>
      "Je vais chercher des panneaux pour " ++ param ++ ". Allons-y."
    | MsgKey.pinned =>
      "Emplacement épinglé dans le registre spatial. En attente d'audit."
    | MsgKey.pinFailed => "Échec de l'enregistrement de l'emplacement."
  else if lang = "German" then
    match key with
    | MsgKey.navigating => "Navigiere zu " ++ param ++ ". Ich werde dich führen."
    | MsgKey.signHunting =>
      "Ich werde nach Schildern für " ++ param ++ " suchen. Los geht's."
    | MsgKey.pinned =>
      "Standort im räumlichen Register markiert. Audit ausstehend."
    | MsgKey.pinFailed =>
      "Standort konnte nicht im Register gespeichert werden."
  else if lang = "Hindi" then
    match key with
    | MsgKey.navigating =>
      param ++ " की ओर जा रहे हैं। मैं आपका मार्गदर्शन करूँगा।"
    | MsgKey.signHunting =>
      "मैं " ++ param ++ " के लिए संकेतों की तलाश करूँगा। चलिए।"
    | MsgKey.pinned =>
      "स्थान स्थानिक रजिस्ट्री में पिन किया गया। ऑडिट की प्रतीक्षा है।"
    | MsgKey.pinFailed => "रजिस्ट्री में स्थान सहेजने में विफल।"
  else
    match key with
    | MsgKey.navigating => "Navigating to " ++ param ++ ". I will guide you."
    | MsgKey.signHunting =>
      "I'll look for signs for " ++ param ++ ". Let's go."
    | MsgKey.pinned => "Location pinned to spatial registry. Awaiting audit."
    | MsgKey.pinFailed => "Failed to save location to registry."

/-- The localized confirmations spoken by `handleLanguageChange`. -/
def languageConfirmation (lang : String) : String :=
  if lang = "Spanish" then "Idioma cambiado a español."
  else if lang = "French" then "Langue réglée sur le français."
  else if lang = "German" then "Sprache auf Deutsch eingestellt."
  else if lang = "Chinese" then "语言已设置为中文。"
  else if lang = "Japanese" then "言語が日本語に設定されました。"
  else if lang = "Hindi" then "भाषा हिंदी में सेट की गई है।"
  else if lang = "English" then "Language set to English."
  else if lang = "Portuguese" then "Idioma definido para português."
  else if lang = "Italian" then "Lingua impostata su italiano."
  else "Language set to " ++ lang ++ "."

/-- The React state of the App component relevant to the orchestrator
(camera/mic handles, the audio url and the listening flag are UI-only and
outside the modelled claims).  `currentLanguage` also stands for
`currentLanguageRef`, which the source keeps in lockstep with it.
`solanaBalanceMilli` is the Buddy-Points balance in thousandths. -/
structure AppState where
  isLoading : Bool
  isScanning : Bool
  lastDescription : String
  lastSceneDescription : String
  navigationTarget : Option String
  currentLanguage : String
  solanaBalanceMilli : Nat
  goldenPath : List SpatialNode
  errorMsg : Option String
deriving DecidableEq

/-- The initial `useState` values of the App component. -/
def initialState : AppState :=
  { isLoading := false, isScanning := false, lastDescription := "",
    lastSceneDescription := "", navigationTarget := none,
    currentLanguage := "English", solanaBalanceMilli := 1245,
    goldenPath := [], errorMsg := none }

/-- One audible output requested by a turn, in emission order:
the hazard alert tone (`playHazardAlert`) or a `playMessage` text. -/
inductive SpeechEvent
  | hazardTone
  | message (text : String)
deriving DecidableEq

/-- The arguments a turn passes to `gemini.describeScene` (besides the
captured frame). -/
structure VisionCall where
  question : Option String
  navigationTarget : Option String
  language : String
deriving DecidableEq

/-- Outcome of `snowflake.saveNewPath`: a resolved id or a thrown error
message. -/
inductive SaveOutcome
  | ok
  | failure (msg : String)

/-- Result of the `pinLocation` handler: the new state, whether
`saveNewPath` was invoked at all, and the speech it requested. -/
structure PinResult where
  state : AppState
  registryWrite : Bool
  spoken : List SpeechEvent

/-- The `pinLocation` handler.  `saveOutcome` is the outcome of the
`saveNewPath` call and `refreshedPath` the result of the follow-up
`fetchGoldenPath` (which never throws).  With no description to pin (or a
concurrently running turn) it returns before any registry call. -/
def pinLocation (s : AppState) (saveOutcome : SaveOutcome)
    (refreshedPath : List SpatialNode) : PinResult :=
  let descriptionToPin :=
    if s.lastSceneDescription = "" then s.lastDescription
    else s.lastSceneDescription
  if descriptionToPin = "" ∨ s.isLoading = true then
    { state := s, registryWrite := false, spoken := [] }
  else
    match saveOutcome with
    | SaveOutcome.ok =>
      { state :=
          { s with
            errorMsg := none
            goldenPath := refreshedPath
            isLoading := false },
        registryWrite := true,
        spoken :=
          [SpeechEvent.message
            (systemMessage s.currentLanguage MsgKey.pinned "")] }
    | SaveOutcome.failure msg =>
      { state := { s with errorMsg := some msg, isLoading := false },
        registryWrite := true,
        spoken :=
          [SpeechEvent.message
            (systemMessage s.currentLanguage MsgKey.pinFailed "")] }

/-- Result of a voice-triggered turn (`handleUserQuestion`). -/
structure VoiceResult where
  state : AppState
  visionCall : Option VisionCall
  registryWrite : Bool
  navResolution : Option Bool
  spoken : List SpeechEvent

/-- The tail of `handleUserQuestion` shared by the navigation and free-form
paths: optional registry resolution and announcement, then the Gemini call
and the spoken answer.  Note that the `navigationTarget` argument handed to
`describeScene` is read from the snapshot `s` (the closed-over React state
variable), not from the target possibly resolved earlier in the same turn.
`navResolution` records which resolution branch ran (`some true` registry
match, `some false` sign hunting, `none` no navigation intent). -/
def visionTurn (s : AppState) (question lq : String) (navIntent : Bool)
    (registryResult : List SpatialNode) (visionRaw : GeminiRaw) :
    VoiceResult :=
  let targetLang := (translateOverride lq).getD s.currentLanguage
  let navTargetNew : Option String :=
    if navIntent then
      match registryResult with
      | loc :: _ => some loc.description
      | [] => some question
    else s.navigationTarget
  let navResolutionNew : Option Bool :=
    if navIntent then
      match registryResult with
      | _ :: _ => some true
      | [] => some false
    else none
  let navSpoken : List SpeechEvent :=
    if navIntent then
      match registryResult with
      | loc :: _ =>
        [SpeechEvent.message
          (systemMessage s.currentLanguage MsgKey.navigating loc.description)]
      | [] =>
        [SpeechEvent.message
          (systemMessage s.currentLanguage MsgKey.signHunting question)]
    else []
  let analysis := describeScene visionRaw
  { state :=
      { s with
        lastDescription := analysis.description
        lastSceneDescription := analysis.description
        navigationTarget := navTargetNew
        isLoading := false },
    visionCall :=
      some { question := some question,
             navigationTarget := jsTruthy s.navigationTarget,
             language := targetLang },
    registryWrite := false,
    navResolution := navResolutionNew,
    spoken :=
      navSpoken ++
        SpeechEvent.message analysis.description ::
          (match jsTruthy analysis.navigation with
           | some n => [SpeechEvent.message n]
           | none => []) }

/-- The `handleUserQuestion` voice-turn handler.  A trigger while a turn is
already running (`isLoading`) is dropped.  Otherwise the listening echo is
shown, the intent checks of the source run in order (language switch, pin,
navigation, free-form), and the chosen path executes with the outcomes of
its external calls passed in as parameters. -/
def handleUserQuestion (s : AppState) (question : String)
    (registryResult : List SpatialNode) (visionRaw : GeminiRaw)
    (saveOutcome : SaveOutcome) (refreshedPath : List SpatialNode) :
    VoiceResult :=
  if s.isLoading then
    { state := s, visionCall := none, registryWrite := false,
      navResolution := none, spoken := [] }
  else
    let listeningEcho := "Listening: \"" ++ question ++ "\""
    let lq := toLowerStr question
    match classifyUtterance question with
    | Intent.languageSwitch lang =>
      { state :=
          { s with
            lastDescription := listeningEcho
            currentLanguage := lang
            isLoading := false },
        visionCall := none, registryWrite := false, navResolution := none,
        spoken := [SpeechEvent.message (languageConfirmation lang)] }
    | Intent.pinLocation =>
      let p := pinLocation s saveOutcome refreshedPath
      { state :=
          { p.state with
            lastDescription := listeningEcho
            isLoading := false },
        visionCall := none, registryWrite := p.registryWrite,
        navResolution := none, spoken := p.spoken }
    | Intent.navigateTo _ => visionTurn s question lq true registryResult visionRaw
    | Intent.freeform _ => visionTurn s question lq false registryResult visionRaw

/-- Result of a scan-triggered turn (`captureAndAnalyze`). -/
structure ScanResult where
  state : AppState
  visionCall : Option VisionCall
  spoken : List SpeechEvent

/-- The `captureAndAnalyze` scan-turn handler.  A trigger while busy is
dropped.  Otherwise: Gemini sees (never throwing — failures are converted to
the fail-closed analysis inside `describeScene`), a truthy hazard is spoken
first behind the alert tone, navigation guidance is spoken when a target is
set and guidance is truthy, the description is only displayed, and the
reward balance is incremented.  The `finally` block clears `isLoading`; the
2-second timer that later clears `isScanning` is outside the handler. -/
def captureAndAnalyze (s : AppState) (visionRaw : GeminiRaw) : ScanResult :=
  if s.isLoading then
    { state := s, visionCall := none, spoken := [] }
  else
    let analysis := describeScene visionRaw
    let hazardSpeech : List SpeechEvent :=
      match jsTruthy analysis.hazard with
      | some h =>
        [SpeechEvent.hazardTone, SpeechEvent.message ("Warning: " ++ h)]
      | none => []
    let navSpeech : List SpeechEvent :=
      match jsTruthy s.navigationTarget, jsTruthy analysis.navigation with
      | some _, some n => [SpeechEvent.message n]
      | _, _ => []
    { state :=
        { s with
          isScanning := true
          lastDescription := analysis.description
          lastSceneDescription := analysis.description
          solanaBalanceMilli := s.solanaBalanceMilli + 5
          isLoading := false },
      visionCall :=
        some { question := none,
               navigationTarget := jsTruthy s.navigationTarget,
               language := s.currentLanguage },
      spoken := hazardSpeech ++ navSpeech }

/-- The playback state of the speech output path: the `isAudioPlaying`
flag, the utterance currently queued in `window.speechSynthesis` (if any)
and the track currently playing through the shared `<audio>` element (if
any), each identified by a caller-chosen playback id. -/
structure AudioState where
  isAudioPlaying : Bool
  nativeUtterance : Option Nat
  elementTrack : Option Nat
deriving DecidableEq

/-- How one `playMessage` call resolves: `remote` — ElevenLabs returned a
URL and `audio.play()` succeeded; `remoteAborted` — a URL was returned but
`play()` rejected with `AbortError`; `remotePlayFailed` — a URL was
returned, `play()` rejected otherwise and the native fallback was used;
`fallbackNative` — ElevenLabs returned null (missing credentials or remote
failure) and the native fallback was used. -/
inductive TtsOutcome
  | remote
  | remoteAborted
  | remotePlayFailed
  | fallbackNative
deriving DecidableEq

/-- The `playMessage` function: sets `isAudioPlaying` to true, cancels any
queued speech synthesis, then either plays the remote audio through the
shared element (pausing and replacing whatever that element was playing —
no `ended` event fires for the replaced track) or speaks a native fallback
utterance.  In the native-fallback path the audio element is never touched,
so a track already playing there keeps playing. -/
def playMessage (s : AudioState) (n : Nat) (outcome : TtsOutcome) :
    AudioState :=
  match outcome with
  | TtsOutcome.remote =>
    { isAudioPlaying := true, nativeUtterance := none,
      elementTrack := some n }
  | TtsOutcome.remoteAborted =>
    { isAudioPlaying := false, nativeUtterance := none,
      elementTrack := none }
  | TtsOutcome.remotePlayFailed =>
    { isAudioPlaying := true, nativeUtterance := some n,
      elementTrack := none }
  | TtsOutcome.fallbackNative =>
    { isAudioPlaying := true, nativeUtterance := some n,
      elementTrack := s.elementTrack }

/-- Delivery of the `ended` event of the shared audio element for playback
`n`.  The event can only fire while `n` is still the element's current
track; the registered handler (the `useEffect` listener) then
unconditionally clears `isAudioPlaying` — there is no generation check. -/
def elementEnded (s : AudioState) (n : Nat) : AudioState :=
  if s.elementTrack = some n then
    { s with isAudioPlaying := false, elementTrack := none }
  else s

/-- Delivery of the `onend` event of native utterance `n`.  The event can
only fire while `n` is still the queued utterance; the handler registered
in `playMessage` then unconditionally clears `isAudioPlaying`. -/
def nativeEnded (s : AudioState) (n : Nat) : AudioState :=
  if s.nativeUtterance = some n then
    { s with isAudioPlaying := false, nativeUtterance := none }
  else s

/-- The playback ids currently audible (element track first, then the
native utterance). -/
def activePlaybacks (s : AudioState) : List Nat :=
  (match s.elementTrack with | some n => [n] | none => []) ++
    (match s.nativeUtterance with | some n => [n] | none => [])

/-- Claim C1: an utterance containing both a pin keyword and a navigate
keyword, and not matching the language-switch rule, is resolved to
`PinLocation` and never to `NavigateTo` — the pin rule is checked strictly
before the navigate rule. -/
theorem c1_pin_before_navigate (q : String)
    (hpin : isPinIntent (toLowerStr q) = true)
    (hnav : isNavIntent (toLowerStr q) = true)
    (hlang : detectLanguageSwitch (toLowerStr q) = none) :
    classifyUtterance q = Intent.pinLocation ∧
      ∀ t, classifyUtterance q ≠ Intent.navigateTo t := by
  have h : classifyUtterance q = Intent.pinLocation := by
    simp [classifyUtterance, hlang, hpin]
  refine ⟨h, fun t hc => ?_⟩
  rw [h] at hc
  exact Intent.noConfusion hc

/-- Witness for C1 at a concrete utterance containing the pin keyword
"save this" and the navigate keywords "where is" and "exit". -/
theorem c1_pin_before_navigate_witness :
    isPinIntent (toLowerStr "Save this, where is the exit") = true ∧
      isNavIntent (toLowerStr "Save this, where is the exit") = true ∧
      detectLanguageSwitch (toLowerStr "Save this, where is the exit") =
        none ∧
      (classifyUtterance "Save this, where is the exit" =
          Intent.pinLocation ∧
        ∀ t, classifyUtterance "Save this, where is the exit" ≠
          Intent.navigateTo t) :=
  ⟨by decide, by decide, by decide,
    c1_pin_before_navigate "Save this, where is the exit"
      (by decide) (by decide) (by decide)⟩

/-- Counterexample to claim C4: on a transport error the vision call does
return a fail-closed analysis, but its strings are not the ones the claim
states — the description is not "unable to see clearly" and the hazard is
not "system error". -/
theorem c4_counterexample :
    (describeScene GeminiRaw.transportError).description ≠
        "unable to see clearly" ∧
      (describeScene GeminiRaw.transportError).hazard ≠
        some "system error" := by
  decide

/-- Claim C4 as amended: on any transport or parse error the vision call
returns (rather than throwing — `describeScene` is a total function whose
error branches are the catch block of the source) the safe default analysis
with description "I'm having trouble seeing the path right now.", hazard
"Visual system error." and navigation null. -/
theorem c4_fail_closed_default :
    describeScene GeminiRaw.transportError = geminiFailureAnalysis ∧
      describeScene (GeminiRaw.text none) = geminiFailureAnalysis ∧
      geminiFailureAnalysis.description =
        "I'm having trouble seeing the path right now." ∧
      geminiFailureAnalysis.hazard = some "Visual system error." ∧
      geminiFailureAnalysis.navigation = none :=
  ⟨rfl, rfl, rfl, rfl, rfl⟩

/-- Claim C10: for every query and building id, the registry read
operations return the empty list (instead of throwing — both functions are
total) on a transport error, a non-JSON body, or a JSON body without a
`data` field. -/
theorem c10_registry_reads_fail_safe (query buildingId : String) :
    searchRegistry query buildingId RegistryResponse.transportError = [] ∧
      searchRegistry query buildingId RegistryResponse.jsonWithoutData =
        [] ∧
      fetchGoldenPath buildingId RegistryResponse.transportError = [] ∧
      fetchGoldenPath buildingId RegistryResponse.jsonWithoutData = [] :=
  ⟨rfl, rfl, rfl, rfl⟩

/-- Counterexample to claim C2: a scan turn whose vision call hits a
transport error still increments the reward balance, because
`describeScene` converts the failure into its fail-closed analysis and the
turn then completes normally (the system does return to `Idle`). -/
theorem c2_counterexample :
    (captureAndAnalyze initialState GeminiRaw.transportError
          ).state.solanaBalanceMilli ≠ initialState.solanaBalanceMilli ∧
      (captureAndAnalyze initialState GeminiRaw.transportError
          ).state.isLoading = false := by
  decide

/-- Claim C2 as amended: every accepted scan-triggered turn — including one
whose vision call fails with a transport or parse error, since that failure
is converted into the fail-closed analysis — returns the system to `Idle`
(the loading flag is cleared) and increments the reward balance exactly
once. -/
theorem c2_scan_turn_reward (s : AppState) (raw : GeminiRaw)
    (hidle : s.isLoading = false) :
    (captureAndAnalyze s raw).state.isLoading = false ∧
      (captureAndAnalyze s raw).state.solanaBalanceMilli =
        s.solanaBalanceMilli + 5 := by
  simp [captureAndAnalyze, hidle]

/-- Witness for the amended C2 at the initial state with a transport
error. -/
theorem c2_scan_turn_reward_witness :
    initialState.isLoading = false ∧
      ((captureAndAnalyze initialState GeminiRaw.transportError
            ).state.isLoading = false ∧
        (captureAndAnalyze initialState GeminiRaw.transportError
            ).state.solanaBalanceMilli =
          initialState.solanaBalanceMilli + 5) :=
  ⟨rfl, c2_scan_turn_reward initialState GeminiRaw.transportError rfl⟩

/-- Counterexample to claim C3: starting from the idle audio state, play
message 1 through the remote voice (the audio element), then play message 2
before it completes with the native fallback (ElevenLabs unavailable).
The second call never touches the audio element, so both playbacks are
active at once — not exactly one; and when track 1 later ends, its
unguarded completion handler (there is no generation counter anywhere in
the source) clears `isAudioPlaying` while utterance 2 is still active. -/
theorem c3_counterexample :
    (playMessage (playMessage ⟨false, none, none⟩ 1 TtsOutcome.remote) 2
          TtsOutcome.fallbackNative).elementTrack = some 1 ∧
      (playMessage (playMessage ⟨false, none, none⟩ 1 TtsOutcome.remote) 2
          TtsOutcome.fallbackNative).nativeUtterance = some 2 ∧
      activePlaybacks
          (playMessage (playMessage ⟨false, none, none⟩ 1 TtsOutcome.remote)
            2 TtsOutcome.fallbackNative) = [1, 2] ∧
      (elementEnded
          (playMessage (playMessage ⟨false, none, none⟩ 1 TtsOutcome.remote)
            2 TtsOutcome.fallbackNative) 1).isAudioPlaying = false ∧
      (elementEnded
          (playMessage (playMessage ⟨false, none, none⟩ 1 TtsOutcome.remote)
            2 TtsOutcome.fallbackNative) 1).nativeUtterance = some 2 := by
  decide

/-- Claim C3 as amended: when the second call resolves through the remote
voice it fully preempts the first (whatever channel the first used), leaving
exactly one active playback with `isAudioPlaying` true, and the replaced
element track emits no late completion event; but when the second call falls
back to native synthesis while the first is playing through the audio
element, the first playback keeps running alongside the second, and its
eventual `ended` event clears `isAudioPlaying` while the second is still
active — the code has no generation counter discarding stale completions. -/
theorem c3_preemption_behavior (s : AudioState) (a b : Nat) :
    playMessage (playMessage s a TtsOutcome.remote) b TtsOutcome.remote =
        { isAudioPlaying := true, nativeUtterance := none,
          elementTrack := some b } ∧
      playMessage (playMessage s a TtsOutcome.fallbackNative) b
          TtsOutcome.remote =
        { isAudioPlaying := true, nativeUtterance := none,
          elementTrack := some b } ∧
      activePlaybacks
          (playMessage (playMessage s a TtsOutcome.remote) b
            TtsOutcome.fallbackNative) = [a, b] ∧
      elementEnded
          (playMessage (playMessage s a TtsOutcome.remote) b
            TtsOutcome.fallbackNative) a =
        { isAudioPlaying := false, nativeUtterance := some b,
          elementTrack := none } := by
  refine ⟨rfl, rfl, rfl, ?_⟩
  simp [playMessage, elementEnded]

/-- A non-null, non-empty optional string is its own truthy coercion. -/
theorem jsTruthy_eq_self (o : Option String) (h : o ≠ some "") :
    jsTruthy o = o := by
  cases o with
  | none => rfl
  | some t =>
    have ht : t ≠ "" := fun hh => h (by rw [hh])
    simp [jsTruthy, ht]

/-- A concrete analysis used to exercise claim C5: non-null hazard and
non-null navigation guidance. -/
def c5Analysis : SceneAnalysis :=
  { description := "A quiet hallway.", hazard := some "wet floor",
    navigation := some "Turn left." }

/-- Counterexample to claim C5: in a voice-triggered turn whose analysis
carries a non-null hazard, the hazard is never spoken at all, and the
description is spoken before the navigation guidance — not after it. -/
theorem c5_counterexample :
    (handleUserQuestion initialState "look around" []
          (GeminiRaw.text (some c5Analysis)) SaveOutcome.ok []).spoken =
        [SpeechEvent.message "A quiet hallway.",
         SpeechEvent.message "Turn left."] ∧
      SpeechEvent.message "Warning: wet floor" ∉
        (handleUserQuestion initialState "look around" []
          (GeminiRaw.text (some c5Analysis)) SaveOutcome.ok []).spoken := by
  decide

/-- Claim C5 as amended: only scan-triggered turns give the hazard
priority — there a truthy hazard is spoken first (behind the alert tone),
then the navigation guidance when a target is set and the guidance is
truthy, and the description is not spoken at all.  A voice-triggered turn
that reaches the vision call (whether navigation-intent or free-form)
never speaks the hazard: it speaks the navigation announcement first when
the turn has navigation intent (the navigating confirmation on a registry
match, else the sign-hunting announcement), then the description, then the
truthy navigation guidance. -/
theorem c5_spoken_order (s : AppState) (q : String)
    (reg rp : List SpatialNode) (a : SceneAnalysis) (so : SaveOutcome)
    (hidle : s.isLoading = false)
    (hlang : detectLanguageSwitch (toLowerStr q) = none)
    (hpin : isPinIntent (toLowerStr q) = false) :
    (captureAndAnalyze s (GeminiRaw.text (some a))).spoken =
        (match jsTruthy a.hazard with
         | some h =>
           [SpeechEvent.hazardTone, SpeechEvent.message ("Warning: " ++ h)]
         | none => []) ++
        (match jsTruthy s.navigationTarget, jsTruthy a.navigation with
         | some _, some n => [SpeechEvent.message n]
         | _, _ => []) ∧
      (handleUserQuestion s q reg (GeminiRaw.text (some a)) so rp).spoken =
        (if isNavIntent (toLowerStr q) = true then
          match reg with
          | loc :: _ =>
            [SpeechEvent.message
              (systemMessage s.currentLanguage MsgKey.navigating
                loc.description)]
          | [] =>
            [SpeechEvent.message
              (systemMessage s.currentLanguage MsgKey.signHunting q)]
         else []) ++
          SpeechEvent.message a.description ::
            (match jsTruthy a.navigation with
             | some n => [SpeechEvent.message n]
             | none => []) := by
  constructor
  · simp [captureAndAnalyze, hidle, describeScene]
  · by_cases hn : isNavIntent (toLowerStr q) = true
    · have hcl : classifyUtterance q = Intent.navigateTo q := by
        simp [classifyUtterance, hlang, hpin, hn]
      simp [handleUserQuestion, hidle, hcl, visionTurn, describeScene, hn]
    · simp only [Bool.not_eq_true] at hn
      have hcl : classifyUtterance q = Intent.freeform q := by
        simp [classifyUtterance, hlang, hpin, hn]
      simp [handleUserQuestion, hidle, hcl, visionTurn, describeScene, hn]

/-- Witness for the amended C5: the initial state, the navigation-intent
utterance "where is the exit" against an empty registry, and an analysis
with hazard "wet floor" and guidance "Turn left.": the voice turn speaks
the sign-hunting announcement, then the description, then the guidance —
and never the hazard. -/
theorem c5_spoken_order_witness :
    initialState.isLoading = false ∧
      detectLanguageSwitch (toLowerStr "where is the exit") = none ∧
      isPinIntent (toLowerStr "where is the exit") = false ∧
      ((captureAndAnalyze initialState
            (GeminiRaw.text (some c5Analysis))).spoken =
          [SpeechEvent.hazardTone,
           SpeechEvent.message "Warning: wet floor"] ∧
        (handleUserQuestion initialState "where is the exit" []
            (GeminiRaw.text (some c5Analysis)) SaveOutcome.ok []).spoken =
          [SpeechEvent.message
             "I'll look for signs for where is the exit. Let's go.",
           SpeechEvent.message "A quiet hallway.",
           SpeechEvent.message "Turn left."]) :=
  ⟨rfl, by decide, by decide,
    c5_spoken_order initialState "where is the exit" [] [] c5Analysis
      SaveOutcome.ok rfl (by decide) (by decide)⟩

/-- Claim C6: a navigation-intent turn whose registry search returns zero
nodes does not throw (the handler is a total function), sets the
navigation target to the raw utterance text, flags the resolution as
unmatched (sign hunting), and requests the sign-hunting announcement
carrying the raw utterance as its first speech output. -/
theorem c6_sign_hunting (s : AppState) (q : String) (raw : GeminiRaw)
    (so : SaveOutcome) (rp : List SpatialNode)
    (hidle : s.isLoading = false)
    (hnav : classifyUtterance q = Intent.navigateTo q) :
    (handleUserQuestion s q [] raw so rp).state.navigationTarget = some q ∧
      (handleUserQuestion s q [] raw so rp).navResolution = some false ∧
      (handleUserQuestion s q [] raw so rp).spoken.head? =
        some (SpeechEvent.message
          (systemMessage s.currentLanguage MsgKey.signHunting q)) := by
  simp [handleUserQuestion, hidle, hnav, visionTurn]

/-- Witness for C6: the scenario from the spec, "where is the restroom"
against an empty registry, in the initial (English) state. -/
theorem c6_sign_hunting_witness :
    initialState.isLoading = false ∧
      classifyUtterance "where is the restroom" =
        Intent.navigateTo "where is the restroom" ∧
      ((handleUserQuestion initialState "where is the restroom" []
            GeminiRaw.transportError SaveOutcome.ok
            []).state.navigationTarget = some "where is the restroom" ∧
        (handleUserQuestion initialState "where is the restroom" []
            GeminiRaw.transportError SaveOutcome.ok []).navResolution =
          some false ∧
        (handleUserQuestion initialState "where is the restroom" []
            GeminiRaw.transportError SaveOutcome.ok []).spoken.head? =
          some (SpeechEvent.message
            "I'll look for signs for where is the restroom. Let's go.")) :=
  ⟨rfl, by decide,
    c6_sign_hunting initialState "where is the restroom"
      GeminiRaw.transportError SaveOutcome.ok [] rfl (by decide)⟩

/-- A concrete analysis without hazard or guidance, used to exercise claim
C7. -/
def c7Analysis : SceneAnalysis :=
  { description := "A corridor.", hazard := none, navigation := none }

/-- Counterexample to claim C7: in the very turn that resolves a new
navigation target ("where is the exit" against an empty registry), the
vision call receives no target at all — the handler reads the closed-over
state snapshot, not the target it just set — even though the Navigation
State target resolved by that turn is the utterance text. -/
theorem c7_counterexample :
    (handleUserQuestion initialState "where is the exit" []
          (GeminiRaw.text (some c7Analysis)) SaveOutcome.ok
          []).state.navigationTarget = some "where is the exit" ∧
      (handleUserQuestion initialState "where is the exit" []
          (GeminiRaw.text (some c7Analysis)) SaveOutcome.ok
          []).visionCall =
        some { question := some "where is the exit",
               navigationTarget := none, language := "English" } := by
  decide

/-- Claim C7 as amended: the navigation target handed to every vision call
(scan- or voice-triggered) equals the Navigation State target as of the
start of the turn — the state snapshot the handler closed over.  A target
resolved during a voice turn is therefore only seen by the vision calls of
later turns, not by the scene-analysis call of the same turn. -/
theorem c7_vision_target_snapshot (s : AppState) (q : String)
    (reg rp : List SpatialNode) (raw : GeminiRaw) (so : SaveOutcome)
    (hidle : s.isLoading = false)
    (hne : s.navigationTarget ≠ some "") :
    (captureAndAnalyze s raw).visionCall =
        some { question := none, navigationTarget := s.navigationTarget,
               language := s.currentLanguage } ∧
      ∀ c, (handleUserQuestion s q reg raw so rp).visionCall = some c →
        c.navigationTarget = s.navigationTarget := by
  have hj := jsTruthy_eq_self s.navigationTarget hne
  constructor
  · simp [captureAndAnalyze, hidle, hj]
  · intro c hc
    cases hcl : classifyUtterance q with
    | languageSwitch lang =>
      simp [handleUserQuestion, hidle, hcl] at hc
    | pinLocation =>
      simp [handleUserQuestion, hidle, hcl] at hc
    | navigateTo t =>
      simp [handleUserQuestion, hidle, hcl, visionTurn] at hc
      rw [← hc]
      exact hj
    | freeform t =>
      simp [handleUserQuestion, hidle, hcl, visionTurn] at hc
      rw [← hc]
      exact hj

/-- Witness for the amended C7: the initial state (no target set) with the
free-form utterance "look around". -/
theorem c7_vision_target_snapshot_witness :
    initialState.isLoading = false ∧
      initialState.navigationTarget ≠ some "" ∧
      ((captureAndAnalyze initialState GeminiRaw.transportError).visionCall =
          some { question := none, navigationTarget := none,
                 language := "English" } ∧
        ∀ c, (handleUserQuestion initialState "look around" []
              GeminiRaw.transportError SaveOutcome.ok []).visionCall =
            some c →
          c.navigationTarget = none) :=
  ⟨rfl, by decide,
    c7_vision_target_snapshot initialState "look around" [] []
      GeminiRaw.transportError SaveOutcome.ok rfl (by decide)⟩

/-- Claim C8: for a turn that reaches the vision call (no language switch,
no pin intent), the persistent language state is unchanged by the turn; the
vision call's language is the per-request override when the utterance
carries a translate phrase, else the persistent language; no translate
phrase means no override; and an utterance whose only matching translate
phrase names the known language L is overridden to exactly L. -/
theorem c8_translate_override (s : AppState) (q : String)
    (reg rp : List SpatialNode) (raw : GeminiRaw) (so : SaveOutcome)
    (hidle : s.isLoading = false)
    (hlang : detectLanguageSwitch (toLowerStr q) = none)
    (hpin : isPinIntent (toLowerStr q) = false) :
    (handleUserQuestion s q reg raw so rp).state.currentLanguage =
        s.currentLanguage ∧
      (∀ c, (handleUserQuestion s q reg raw so rp).visionCall = some c →
        c.language =
          (translateOverride (toLowerStr q)).getD s.currentLanguage) ∧
      (strContains (toLowerStr q) "translate to " = false →
        translateOverride (toLowerStr q) = none) ∧
      (∀ L, L ∈ languageNames →
        strContains (toLowerStr q) ("translate to " ++ toLowerStr L) =
          true →
        (∀ M, M ∈ languageNames →
          strContains (toLowerStr q) ("translate to " ++ toLowerStr M) =
            true → M = L) →
        translateOverride (toLowerStr q) = some L) := by
  have hcl : classifyUtterance q = Intent.navigateTo q ∨
      classifyUtterance q = Intent.freeform q := by
    by_cases hn : isNavIntent (toLowerStr q) = true
    · left; simp [classifyUtterance, hlang, hpin, hn]
    · right
      simp only [Bool.not_eq_true] at hn
      simp [classifyUtterance, hlang, hpin, hn]
  refine ⟨?_, ?_, ?_, ?_⟩
  · rcases hcl with hcl | hcl <;>
      simp [handleUserQuestion, hidle, hcl, visionTurn]
  · intro c hc
    rcases hcl with hcl | hcl <;>
      simp [handleUserQuestion, hidle, hcl, visionTurn] at hc <;>
      rw [← hc]
  · intro hno
    refine List.find?_eq_none.mpr ?_
    intro L _ hcontra
    have := strContains_append_left (toLowerStr q) "translate to "
      (toLowerStr L) hcontra
    rw [hno] at this
    exact Bool.false_ne_true this
  · intro L hmem hL huniq
    exact find?_eq_some_of_unique _ languageNames L hmem hL
      (fun M hM hMp => huniq M hM hMp)

/-- Witness for C8: "Translate to French what does this sign say" in the
initial (English) state; French is the only language whose translate
phrase the utterance contains, the override is French, and the persistent
language stays English. -/
theorem c8_translate_override_witness :
    initialState.isLoading = false ∧
      detectLanguageSwitch
          (toLowerStr "Translate to French what does this sign say") =
        none ∧
      isPinIntent
          (toLowerStr "Translate to French what does this sign say") =
        false ∧
      ((handleUserQuestion initialState
            "Translate to French what does this sign say" []
            GeminiRaw.transportError SaveOutcome.ok
            []).state.currentLanguage = "English" ∧
        (∀ c, (handleUserQuestion initialState
              "Translate to French what does this sign say" []
              GeminiRaw.transportError SaveOutcome.ok []).visionCall =
            some c →
          c.language =
            (translateOverride
                (toLowerStr
                  "Translate to French what does this sign say")).getD
              "English") ∧
        (strContains
            (toLowerStr "Translate to French what does this sign say")
            "translate to " = false →
          translateOverride
              (toLowerStr "Translate to French what does this sign say") =
            none) ∧
        (∀ L, L ∈ languageNames →
          strContains
              (toLowerStr "Translate to French what does this sign say")
              ("translate to " ++ toLowerStr L) = true →
          (∀ M, M ∈ languageNames →
            strContains
                (toLowerStr "Translate to French what does this sign say")
                ("translate to " ++ toLowerStr M) = true → M = L) →
          translateOverride
              (toLowerStr "Translate to French what does this sign say") =
            some L)) :=
  ⟨rfl, by decide, by decide,
    c8_translate_override initialState
      "Translate to French what does this sign say" [] []
      GeminiRaw.transportError SaveOutcome.ok rfl (by decide) (by decide)⟩

/-- Counterexample to claim C9: a prior voice turn can leave the system
with no scene description and yet a non-empty last-description field.  The
language-switch turn "switch to French" runs no scene analysis (its vision
call is none) and leaves `lastSceneDescription` empty, but stores the
listening echo in `lastDescription`; a following "pin this" turn then falls
back to that echo and does invoke `saveNewPath` — a registry write occurs
although no prior scene description was ever available. -/
theorem c9_counterexample :
    (handleUserQuestion initialState "switch to French" []
          GeminiRaw.transportError SaveOutcome.ok []).visionCall = none ∧
      (handleUserQuestion initialState "switch to French" []
          GeminiRaw.transportError SaveOutcome.ok
          []).state.lastSceneDescription = "" ∧
      (handleUserQuestion
          (handleUserQuestion initialState "switch to French" []
            GeminiRaw.transportError SaveOutcome.ok []).state
          "pin this" [] GeminiRaw.transportError SaveOutcome.ok
          []).registryWrite = true := by
  decide

/-- Claim C9 as amended: a pin-intent turn is a no-op exactly when both
description fields are still empty (the startup situation, before any turn
has displayed anything): then `saveNewPath` is never invoked, the stored
path list is unchanged, and no pin announcement is spoken.  "No prior
scene description" alone does not suffice: a prior turn that produced no
analysis still leaves its listening echo in `lastDescription`, and a pin
turn in that state persists the echo. -/
theorem c9_pin_noop (s : AppState) (q : String) (reg rp : List SpatialNode)
    (raw : GeminiRaw) (so : SaveOutcome)
    (hidle : s.isLoading = false)
    (hlastd : s.lastDescription = "")
    (hlasts : s.lastSceneDescription = "")
    (hpin : classifyUtterance q = Intent.pinLocation) :
    (handleUserQuestion s q reg raw so rp).registryWrite = false ∧
      (handleUserQuestion s q reg raw so rp).state.goldenPath =
        s.goldenPath ∧
      (handleUserQuestion s q reg raw so rp).spoken = [] := by
  simp [handleUserQuestion, hidle, hpin, pinLocation, hlastd, hlasts]

/-- Witness for C9: the spec scenario, "pin this" in the initial state
where no description has been produced yet. -/
theorem c9_pin_noop_witness :
    initialState.isLoading = false ∧
      initialState.lastDescription = "" ∧
      initialState.lastSceneDescription = "" ∧
      classifyUtterance "pin this" = Intent.pinLocation ∧
      ((handleUserQuestion initialState "pin this" []
            GeminiRaw.transportError SaveOutcome.ok []).registryWrite =
          false ∧
        (handleUserQuestion initialState "pin this" []
            GeminiRaw.transportError SaveOutcome.ok
            []).state.goldenPath = [] ∧
        (handleUserQuestion initialState "pin this" []
            GeminiRaw.transportError SaveOutcome.ok []).spoken = []) :=
  ⟨rfl, rfl, rfl, by decide,
    c9_pin_noop initialState "pin this" [] [] GeminiRaw.transportError
      SaveOutcome.ok rfl rfl rfl (by decide)⟩

end VisionBuddy
